import Mathlib

/-!
# mpnet_local_planner: the plan manager (`MpnetLocalPlanner`)

A shallow embedding of `src/src/mpnet_plan_ros.cpp` (`setPlan`,
`computeVelocityCommands`, `isGoalReached`, `pruneLocalPlan`) and theorems
about it.

Conventions of the embedding:

* A C++ `double` is an exact rational (`ℚ`): rounding, infinities and NaN are
  not modelled.  The one square root that decides control flow,
  `std::hypot(dx, dy) <= tol`, is replaced by its exact meaning
  `0 ≤ tol ∧ dx² + dy² ≤ tol²`.
* The member variables of the class are the fields of `Planner`; a member
  function takes the planner and returns the planner it leaves behind.
* Everything the class calls but does not own (costmap, tf, the MPNet path
  provider, the ROS clock, the reset service, libm) is a field of `World`: the
  answers those collaborators give during one call.
* What a call sends out (published messages, provider queries, the reset
  request) is recorded, in order, as a list of `Event`.
* A read outside a `std::vector` has no defined behaviour: the call then has no
  result (`none`).
-/

namespace mpnet_local_planner

/-! ## Messages -/

/-- The message type `geometry_msgs::Point`. -/
structure Point where
  x : ℚ
  y : ℚ
  z : ℚ
  deriving DecidableEq

/-- The message type `geometry_msgs::Quaternion`. -/
structure Quaternion where
  x : ℚ
  y : ℚ
  z : ℚ
  w : ℚ
  deriving DecidableEq

/-- The message type `geometry_msgs::Pose`. -/
structure Pose where
  position : Point
  orientation : Quaternion
  deriving DecidableEq

/-- The message type `std_msgs::Header` (sequence number left out: never written here). -/
structure Header where
  frame_id : String
  stamp : Nat
  deriving DecidableEq

/-- The message type `geometry_msgs::PoseStamped`. -/
structure PoseStamped where
  header : Header
  pose : Pose
  deriving DecidableEq

/-- The message type `geometry_msgs::Vector3`. -/
structure Vector3 where
  x : ℚ
  y : ℚ
  z : ℚ
  deriving DecidableEq

/-- The message type `geometry_msgs::Twist`. -/
structure Twist where
  linear : Vector3
  angular : Vector3
  deriving DecidableEq

/-- One point `(x, y, th)` of a `base_local_planner::Trajectory`. -/
structure TrajPoint where
  x : ℚ
  y : ℚ
  th : ℚ
  deriving DecidableEq

/-- The points of a `base_local_planner::Trajectory` (`getPointsSize` is the
length, `getPoint i` the `i`-th element, `resetPoints` the empty list). -/
abbrev Trajectory := List TrajPoint

/-! ## The planner object and its collaborators -/

/-- The member variables of `MpnetLocalPlanner` that the embedded functions read or write. -/
structure Planner where
  initialized_ : Bool
  global_frame_ : String
  robot_base_frame_ : String
  xy_goal_tolerance : ℚ
  yaw_goal_tolerance : ℚ
  reached_goal_ : Bool
  prune_plan_ : Bool
  valid_local_path : Bool
  path : Trajectory
  global_plan_ : List PoseStamped
  local_plan : List PoseStamped
  robot_footprint : List Point
  deriving DecidableEq

/-- The answers of the collaborators during one call. -/
structure World where
  /-- The result of `navigation_costmap_ros_->getRobotPose`: the pose, or failure. -/
  getRobotPose : Option PoseStamped
  /-- The function `base_local_planner::transformGlobalPlan` (plan, pose, frame): the
  transformed plan, or failure. -/
  transformGlobalPlan : List PoseStamped → PoseStamped → String → Option (List PoseStamped)
  /-- The function `base_local_planner::prunePlan` (pose, transformed plan, global plan):
  it rewrites both plans in place. -/
  prunePlan : PoseStamped → List PoseStamped → List PoseStamped →
    List PoseStamped × List PoseStamped
  /-- The collision predicate `tc_->isStateValid`. -/
  isStateValid : PoseStamped → Bool
  /-- The path request `tc_->getPath` (start, goal, space bound): the points it leaves in
  the fresh trajectory it is handed. -/
  getPath : PoseStamped → PoseStamped → List ℚ → Trajectory
  /-- The clock `ros::Time::now()` as read while waypoint `i` is built. -/
  now : Nat → Nat
  /-- The answer of `resetController.call`. -/
  resetCall : Bool
  /-- The function `tf2::getYaw`. -/
  getYaw : Quaternion → ℚ
  /-- The function `atan2` of libm. -/
  atan2 : ℚ → ℚ → ℚ
  /-- The function `sin` of libm. -/
  sin : ℚ → ℚ
  /-- The function `cos` of libm. -/
  cos : ℚ → ℚ
  /-- The constant `M_PI`. -/
  pi : ℚ
  /-- The conversion of `tf2::Quaternion::setRPY(0, 0, th)` to a message. -/
  quaternionFromYaw : ℚ → Quaternion

/-- What a call sends to the outside, in the order of the source. -/
inductive Event where
  /-- The footprint published on `robot_footprint`, for the pose `(x, y, yaw)`. -/
  | footprint (x y yaw : ℚ)
  /-- The request `/reset_controller`. -/
  | resetController
  /-- The query `tc_->isStateValid(pose)`. -/
  | isStateValid (pose : PoseStamped)
  /-- The query `tc_->getPath(start, goal, bound, _)`. -/
  | getPath (start goal : PoseStamped) (bound : List ℚ)
  /-- The call `base_local_planner::publishPlan(plan, g_plan_pub_)`. -/
  | publishGlobal (plan : List PoseStamped)
  /-- The call `base_local_planner::publishPlan(plan, l_plan_pub_)`: the local path
  handed to the controller. -/
  | publishLocal (plan : List PoseStamped)
  /-- A line of `ROS_INFO`, `ROS_WARN` or `ROS_ERROR`. -/
  | log (msg : String)
  deriving DecidableEq

/-- True on the two queries of the path provider (collision predicate, path request). -/
def Event.isProviderQuery : Event → Bool
  | .isStateValid _ => true
  | .getPath _ _ _ => true
  | _ => false

/-- What a call leaves behind: its return value, the command it was handed (as
written or untouched), the planner, and what it sent out. -/
structure Outcome where
  ret : Bool
  cmd_vel : Twist
  planner : Planner
  events : List Event
  deriving DecidableEq

/-! ## `pruneLocalPlan` (mpnet_plan_ros.cpp, lines 290-305) -/

/-- The value `distance_sq` computed in the loop body of `pruneLocalPlan` for waypoint `w`. -/
def distance_sq (global_pose w : PoseStamped) : ℚ :=
  let x_diff := global_pose.pose.position.x - w.pose.position.x
  let y_diff := global_pose.pose.position.y - w.pose.position.y
  x_diff * x_diff + y_diff * y_diff

/-- The function `MpnetLocalPlanner::pruneLocalPlan`: the loop looks at the front
waypoint; `break` when `distance_sq < 0.25`, else `erase` it and go on
(the `ROS_DEBUG` line before the `break` is left out). -/
def pruneLocalPlan (global_pose : PoseStamped) : List PoseStamped → List PoseStamped
  | [] => []
  | w :: rest =>
    if distance_sq global_pose w < 1 / 4 then w :: rest
    else pruneLocalPlan global_pose rest

/-! ## `setPlan` and `isGoalReached` (lines 113-134, 281-288) -/

/-- What `setPlan` leaves behind: return value, planner, what it sent out. -/
structure PlanOutcome where
  ret : Bool
  planner : Planner
  events : List Event
  deriving DecidableEq

/-- The function `MpnetLocalPlanner::setPlan`. -/
def setPlan (w : World) (s : Planner) (orig_global_plan : List PoseStamped) : PlanOutcome :=
  if !s.initialized_ then
    { ret := false, planner := s,
      events := [.log "This planner has not been initialized, please call initialize() before using this planner"] }
  else
    -- global_plan_.clear(); local_plan.clear(); path.resetPoints();
    let s1 := { s with global_plan_ := [], local_plan := [], path := [] }
    let said := if w.resetCall then Event.log "Reset the controller"
      else Event.log "Was not able to reset the controller"
    -- global_plan_ = orig_global_plan; reached_goal_ = false; valid_local_path = false;
    let s2 := { s1 with global_plan_ := orig_global_plan, reached_goal_ := false,
                        valid_local_path := false }
    { ret := true, planner := s2, events := [.resetController, said] }

/-- The function `MpnetLocalPlanner::isGoalReached`: it writes no member variable. -/
def isGoalReached (s : Planner) : Bool × List Event :=
  if !s.initialized_ then
    (false, [.log "This planner has not been initialized, please call initialize() before using this planner"])
  else (s.reached_goal_, [])

/-! ## `computeVelocityCommands` (lines 136-279) -/

/-- The position of `v.end()[k]` in a vector of `n` elements, counted from `begin()`. -/
def endOffset (n : Nat) (k : Int) : Int := (n : Int) + k

/-- The read `v.begin()[i]`: defined only for `0 ≤ i < v.size()`. -/
def readAt (v : List PoseStamped) (i : Int) : Option PoseStamped :=
  if 0 ≤ i then v[i.toNat]? else none

/-- The test `std::hypot(a, b) <= t`, in exact arithmetic. -/
def hypotLe (a b t : ℚ) : Bool := decide (0 ≤ t ∧ a * a + b * b ≤ t * t)

/-- The test of line 189, `xydist_from_goal <= xy_goal_tolerance`, with
`xydist_from_goal` as computed on line 184. -/
def withinTolerance (goal_point global_pose : PoseStamped) (xy_goal_tolerance : ℚ) : Bool :=
  hypotLe (goal_point.pose.position.x - global_pose.pose.position.x)
    (goal_point.pose.position.y - global_pose.pose.position.y) xy_goal_tolerance

/-- Lines 171-181: the goal is the last waypoint, with the heading of the vector from
the second-to-last waypoint written into its orientation (`vec_len` is computed and
never read). -/
def goalPoint (w : World) (back goal_point_minus : PoseStamped) : PoseStamped :=
  let diff_x := back.pose.position.x - goal_point_minus.pose.position.x
  let diff_y := back.pose.position.y - goal_point_minus.pose.position.y
  let angle := w.atan2 diff_y diff_x
  { back with pose := { back.pose with
      orientation := { back.pose.orientation with z := w.sin (angle / 2), w := w.cos (angle / 2) } } }

/-- The three assignments `cmd_vel.linear.x = 0.0; cmd_vel.linear.y = 0.0;
cmd_vel.angular.z = 0.0;`. -/
def zeroCommand (cmd_vel : Twist) : Twist :=
  { linear := { cmd_vel.linear with x := 0, y := 0 }, angular := { cmd_vel.angular with z := 0 } }

/-- Lines 254-265: the waypoint built from point `i` of the trajectory. -/
def toWaypoint (w : World) (global_frame_ : String) (i : Nat) (p : TrajPoint) : PoseStamped :=
  { header := { frame_id := global_frame_, stamp := w.now i },
    pose := { position := { x := p.x, y := p.y, z := 0 },
              orientation := w.quaternionFromYaw p.th } }

/-- Lines 251-266: `local_plan` rebuilt from `path`, one waypoint per point, in order. -/
def convertPath (w : World) (global_frame_ : String) (path : Trajectory) : List PoseStamped :=
  path.enum.map fun ip => toWaypoint w global_frame_ ip.1 ip.2

/-- Lines 220-243, the validity gate: `none` is the `return false` of line 240. -/
def validityGate (s : Planner) (new_path : Trajectory) : Option Planner :=
  if new_path.length > 1 then
    some { s with path := new_path, valid_local_path := true }
  else if s.local_plan.length ≤ 1 then
    if new_path.length > 1 then
      some { s with path := new_path, valid_local_path := true }
    else none
  else some s

/-- Lines 245-267: prune the held local path, then rebuild it from `path` when the
candidate was accepted. -/
def refreshLocalPlan (w : World) (global_pose : PoseStamped) (s : Planner) : Planner :=
  let s1 := if !s.local_plan.isEmpty then
      { s with local_plan := pruneLocalPlan global_pose s.local_plan } else s
  if s1.valid_local_path then
    { s1 with local_plan := convertPath w s1.global_frame_ s1.path }
  else s1

/-- Lines 161-162: `if (prune_plan_) prunePlan(global_pose, transformed_plan, global_plan_)`;
the pair is (`transformed_plan`, `global_plan_`) afterwards. -/
def applyPrune (w : World) (s : Planner) (global_pose : PoseStamped)
    (transformed : List PoseStamped) : List PoseStamped × List PoseStamped :=
  if s.prune_plan_ then w.prunePlan global_pose transformed s.global_plan_
  else (transformed, s.global_plan_)

/-- Lines 171-181: `goal_point = transformed_plan.back()`, `goal_point_minus =
transformed_plan.end()[-2]`, then the heading.  No result when a read falls outside
the vector. -/
def deriveGoal (w : World) (transformed_plan : List PoseStamped) : Option PoseStamped :=
  match transformed_plan.getLast?,
      readAt transformed_plan (endOffset transformed_plan.length (-2)) with
  | some back, some goal_point_minus => some (goalPoint w back goal_point_minus)
  | _, _ => none

/-- Lines 183-278 of `computeVelocityCommands`: the tolerance test, the collision test,
the path request, the validity gate and the publication.  `sent` is what the call has
sent out so far. -/
def driveTowards (w : World) (s : Planner) (cmd_vel : Twist) (global_pose : PoseStamped)
    (transformed_plan : List PoseStamped) (goal_point : PoseStamped) (sent : List Event) :
    Outcome :=
  if withinTolerance goal_point global_pose s.xy_goal_tolerance then
    { ret := true, cmd_vel := zeroCommand cmd_vel,
      planner := { s with reached_goal_ := true, valid_local_path := false },
      events := sent ++ [.log "Reach Goal"] }
  else
  let s := { s with valid_local_path := false }
  let spaceBound : List ℚ := [6, 6, w.pi]
  if !w.isStateValid global_pose then
    { ret := false, cmd_vel := cmd_vel,
      planner := { s with path := [], local_plan := [] },
      events := sent ++ [.isStateValid global_pose, .log "Robot is in collision"] }
  else
  let new_path := w.getPath global_pose goal_point spaceBound
  let sent := sent ++ [.isStateValid global_pose, .getPath global_pose goal_point spaceBound]
  match validityGate s new_path with
  | none =>
    { ret := false, cmd_vel := cmd_vel, planner := s,
      events := sent ++ [.log "Did not find a path in the initial search"] }
  | some s =>
  let s := refreshLocalPlan w global_pose s
  { ret := true, cmd_vel := zeroCommand cmd_vel, planner := s,
    events := sent ++ [.publishGlobal transformed_plan, .publishLocal s.local_plan] }

/-- The function `MpnetLocalPlanner::computeVelocityCommands`.  The result is `none`
when the call reads outside `transformed_plan` (line 172 on a one-waypoint plan). -/
def computeVelocityCommands (w : World) (s : Planner) (cmd_vel : Twist) : Option Outcome :=
  if !s.initialized_ then
    some { ret := false, cmd_vel := cmd_vel, planner := s,
           events := [.log "This planner has not been initialized, please call initialize() before using this planner"] }
  else
  match w.getRobotPose with
  | none => some { ret := false, cmd_vel := cmd_vel, planner := s, events := [] }
  | some global_pose =>
  let yaw := w.getYaw global_pose.pose.orientation
  let sent := [Event.footprint global_pose.pose.position.x global_pose.pose.position.y yaw]
  match w.transformGlobalPlan s.global_plan_ global_pose s.global_frame_ with
  | none =>
    some { ret := false, cmd_vel := cmd_vel, planner := s,
           events := sent ++ [.log "Could not transform the global plan to the frame of the controller"] }
  | some transformed =>
  let transformed_plan := (applyPrune w s global_pose transformed).1
  let s := { s with global_plan_ := (applyPrune w s global_pose transformed).2 }
  if transformed_plan.isEmpty then
    some { ret := false, cmd_vel := cmd_vel, planner := s, events := sent }
  else
  match deriveGoal w transformed_plan with
  | none => none
  | some goal_point =>
    some (driveTowards w s cmd_vel global_pose transformed_plan goal_point sent)

/-! ## Sequences of calls -/

/-- One call of the host on the planner, with the answers of the collaborators during it. -/
inductive Call where
  /-- A call `computeVelocityCommands(cmd_vel)`. -/
  | compute (w : World) (cmd_vel : Twist)
  /-- A call `isGoalReached()`. -/
  | askGoal
  /-- A call `setPlan(plan)`. -/
  | newPlan (w : World) (plan : List PoseStamped)

/-- True on a `setPlan` call. -/
def Call.isSetPlan : Call → Bool
  | .newPlan _ _ => true
  | _ => false

/-- The planner after the call; `none` when the call has no defined result. -/
def Call.run (c : Call) (s : Planner) : Option Planner :=
  match c with
  | .compute w cmd_vel => (computeVelocityCommands w s cmd_vel).map (·.planner)
  | .askGoal => some s
  | .newPlan w plan => some (setPlan w s plan).planner

/-- The planner after each call of the sequence in turn, starting from `s`; the list
stops before the first call that has no defined result. -/
def plannersAfter (s : Planner) : List Call → List Planner
  | [] => []
  | c :: cs =>
    match c.run s with
    | none => []
    | some s1 => s1 :: plannersAfter s1 cs

/-! ## Sample data -/

/-- A waypoint at `(x, y)` in frame `map`, heading along the x axis. -/
def wp (x y : ℚ) : PoseStamped :=
  { header := { frame_id := "map", stamp := 0 },
    pose := { position := { x := x, y := y, z := 0 },
              orientation := { x := 0, y := 0, z := 0, w := 1 } } }

/-- A world in which the vehicle is at `pose` (when there is one), the transform and
`prunePlan` leave the plan as it is, the pose is collision free exactly when `free`, and
the provider answers `candidate`.  All headings are along the x axis. -/
def sampleWorld (pose : Option PoseStamped) (free : Bool) (candidate : Trajectory) : World :=
  { getRobotPose := pose
    transformGlobalPlan := fun plan _ _ => some plan
    prunePlan := fun _ transformed global => (transformed, global)
    isStateValid := fun _ => free
    getPath := fun _ _ _ => candidate
    now := fun _ => 0
    resetCall := true
    getYaw := fun _ => 0
    atan2 := fun _ _ => 0
    sin := fun _ => 0
    cos := fun _ => 1
    pi := 355 / 113
    quaternionFromYaw := fun _ => { x := 0, y := 0, z := 0, w := 1 } }

/-- An initialized planner in frame `map` with tolerance 0.1 that holds `plan` as its
global plan and `held` as its local path. -/
def samplePlanner (plan held : List PoseStamped) : Planner :=
  { initialized_ := true
    global_frame_ := "map"
    robot_base_frame_ := "base_link"
    xy_goal_tolerance := 0.1
    yaw_goal_tolerance := 0.2
    reached_goal_ := false
    prune_plan_ := true
    valid_local_path := false
    path := []
    global_plan_ := plan
    local_plan := held
    robot_footprint := [] }

/-- The command handed to the sample calls. -/
def sampleCmd : Twist :=
  { linear := { x := 1, y := 1, z := 0 }, angular := { x := 0, y := 0, z := 1 } }

/-- The global plan of the scenario `[(0,0), (1,0), (2,0)]`. -/
def samplePlan : List PoseStamped := [wp 0 0, wp 1 0, wp 2 0]

/-- The candidate of the scenario `[(0,0), (0.2,0), (0.4,0)]`. -/
def sampleCandidate : Trajectory :=
  [{ x := 0, y := 0, th := 0 }, { x := 0.2, y := 0, th := 0 }, { x := 0.4, y := 0, th := 0 }]

/-- A candidate whose first point lies 3 units from the origin. -/
def farStartCandidate : Trajectory :=
  [{ x := 3, y := 0, th := 0 }, { x := 0, y := 0, th := 0 }, { x := 0.2, y := 0, th := 0 }]

/-- The sample planner after goal arrival: `reached_goal_` is true. -/
def arrivedPlanner : Planner :=
  { samplePlanner samplePlan [] with reached_goal_ := true }

/-- Pruning as the specification words it: drop the longest front run of waypoints whose
squared distance to the vehicle is below 0.25, stop at the first one that is not. -/
def pruneAsWorded (global_pose : PoseStamped) (plan : List PoseStamped) : List PoseStamped :=
  plan.dropWhile (fun w => decide (distance_sq global_pose w < 1 / 4))

/-! ## The pruning rule -/

theorem pruneLocalPlan_eq_dropWhile (global_pose : PoseStamped) (plan : List PoseStamped) :
    pruneLocalPlan global_pose plan
      = plan.dropWhile (fun w => decide (1 / 4 ≤ distance_sq global_pose w)) := by
  induction plan with
  | nil => rfl
  | cons w rest ih =>
    by_cases h : distance_sq global_pose w < 1 / 4
    · have h2 : ¬ (1 / 4 ≤ distance_sq global_pose w) := not_le.mpr h
      rw [pruneLocalPlan, if_pos h, List.dropWhile_cons_of_neg (by simpa using h2)]
    · have h2 : 1 / 4 ≤ distance_sq global_pose w := not_lt.mp h
      rw [pruneLocalPlan, if_neg h, List.dropWhile_cons_of_pos (by simpa using h2), ih]

theorem pruneLocalPlan_suffix (global_pose : PoseStamped) (plan : List PoseStamped) :
    pruneLocalPlan global_pose plan <:+ plan := by
  rw [pruneLocalPlan_eq_dropWhile]
  exact List.dropWhile_suffix _

theorem pruneLocalPlan_length_le (global_pose : PoseStamped) (plan : List PoseStamped) :
    (pruneLocalPlan global_pose plan).length ≤ plan.length :=
  (pruneLocalPlan_suffix global_pose plan).length_le

theorem pruneLocalPlan_of_head_near (global_pose w : PoseStamped) (rest : List PoseStamped)
    (h : distance_sq global_pose w < 1 / 4) :
    pruneLocalPlan global_pose (w :: rest) = w :: rest := by
  rw [pruneLocalPlan, if_pos h]

/-! ## Reads at the end of the plan -/

theorem readAt_endOffset_of_two_le (v : List PoseStamped) (h : 2 ≤ v.length) :
    readAt v (endOffset v.length (-2)) = v[v.length - 2]? := by
  have h0 : (0 : Int) ≤ (v.length : Int) + -2 := by omega
  have h1 : ((v.length : Int) + -2).toNat = v.length - 2 := by omega
  simp only [readAt, endOffset, h0, if_true, h1]

theorem readAt_endOffset_singleton (p : PoseStamped) :
    readAt [p] (endOffset [p].length (-2)) = none := by
  simp [readAt, endOffset]

theorem goalPoint_position (w : World) (back m : PoseStamped) :
    (goalPoint w back m).pose.position = back.pose.position := rfl

theorem withinTolerance_goalPoint (w : World) (back m global_pose : PoseStamped) (t : ℚ) :
    withinTolerance (goalPoint w back m) global_pose t = withinTolerance back global_pose t := rfl

theorem deriveGoal_of_two_le (w : World) (plan : List PoseStamped) (h : 2 ≤ plan.length) :
    ∃ back m, plan.getLast? = some back ∧ deriveGoal w plan = some (goalPoint w back m) := by
  have hne : plan ≠ [] := by
    intro h0
    simp [h0] at h
  have hm : plan.length - 2 < plan.length := by omega
  refine ⟨plan.getLast hne, plan[plan.length - 2], List.getLast?_eq_getLast _ hne, ?_⟩
  simp only [deriveGoal, List.getLast?_eq_getLast _ hne, readAt_endOffset_of_two_le plan h,
    List.getElem?_eq_getElem hm]

theorem deriveGoal_singleton (w : World) (p : PoseStamped) : deriveGoal w [p] = none := by
  simp [deriveGoal, readAt, endOffset]

/-! ## The tolerance test -/

theorem hypotLe_iff_sqrt_le (a b t : ℚ) :
    hypotLe a b t = true ↔ Real.sqrt ((a : ℝ) ^ 2 + (b : ℝ) ^ 2) ≤ (t : ℝ) := by
  rw [Real.sqrt_le_iff]
  simp only [hypotLe, decide_eq_true_eq]
  constructor
  · rintro ⟨h0, h1⟩
    refine ⟨by exact_mod_cast h0, ?_⟩
    have h2 : ((a * a + b * b : ℚ) : ℝ) ≤ ((t * t : ℚ) : ℝ) := by exact_mod_cast h1
    push_cast at h2
    nlinarith [h2]
  · rintro ⟨h0, h1⟩
    refine ⟨by exact_mod_cast h0, ?_⟩
    have h2 : ((a * a + b * b : ℚ) : ℝ) ≤ ((t * t : ℚ) : ℝ) := by
      push_cast
      nlinarith [h1]
    exact_mod_cast h2

theorem withinTolerance_iff_distance_le (goal_point global_pose : PoseStamped) (t : ℚ) :
    withinTolerance goal_point global_pose t = true ↔
      Real.sqrt (((goal_point.pose.position.x - global_pose.pose.position.x : ℚ) : ℝ) ^ 2
        + ((goal_point.pose.position.y - global_pose.pose.position.y : ℚ) : ℝ) ^ 2) ≤ (t : ℝ) :=
  hypotLe_iff_sqrt_le _ _ _

/-! ## The shape of a call -/

theorem computeVelocityCommands_eq_driveTowards (w : World) (s : Planner) (cmd_vel : Twist)
    (global_pose goal_point : PoseStamped) (transformed : List PoseStamped)
    (hinit : s.initialized_ = true) (hpose : w.getRobotPose = some global_pose)
    (htr : w.transformGlobalPlan s.global_plan_ global_pose s.global_frame_ = some transformed)
    (hne : (applyPrune w s global_pose transformed).1 ≠ [])
    (hgoal : deriveGoal w (applyPrune w s global_pose transformed).1 = some goal_point) :
    computeVelocityCommands w s cmd_vel
      = some (driveTowards w { s with global_plan_ := (applyPrune w s global_pose transformed).2 }
          cmd_vel global_pose (applyPrune w s global_pose transformed).1 goal_point
          [Event.footprint global_pose.pose.position.x global_pose.pose.position.y
            (w.getYaw global_pose.pose.orientation)]) := by
  have hemp : (applyPrune w s global_pose transformed).1.isEmpty = false := by
    cases h : (applyPrune w s global_pose transformed).1 with
    | nil => exact absurd h hne
    | cons a l => rfl
  simp only [computeVelocityCommands, hinit, hpose, htr, hemp, hgoal]
  simp

theorem driveTowards_within (w : World) (s : Planner) (cmd_vel : Twist)
    (global_pose : PoseStamped) (plan : List PoseStamped) (goal_point : PoseStamped)
    (sent : List Event)
    (h : withinTolerance goal_point global_pose s.xy_goal_tolerance = true) :
    driveTowards w s cmd_vel global_pose plan goal_point sent
      = { ret := true, cmd_vel := zeroCommand cmd_vel,
          planner := { s with reached_goal_ := true, valid_local_path := false },
          events := sent ++ [.log "Reach Goal"] } := by
  simp [driveTowards, h]

theorem driveTowards_collision (w : World) (s : Planner) (cmd_vel : Twist)
    (global_pose : PoseStamped) (plan : List PoseStamped) (goal_point : PoseStamped)
    (sent : List Event)
    (h : withinTolerance goal_point global_pose s.xy_goal_tolerance = false)
    (hv : w.isStateValid global_pose = false) :
    driveTowards w s cmd_vel global_pose plan goal_point sent
      = { ret := false, cmd_vel := cmd_vel,
          planner := { s with valid_local_path := false, path := [], local_plan := [] },
          events := sent ++ [.isStateValid global_pose, .log "Robot is in collision"] } := by
  simp [driveTowards, h, hv]

theorem driveTowards_no_path (w : World) (s : Planner) (cmd_vel : Twist)
    (global_pose : PoseStamped) (plan : List PoseStamped) (goal_point : PoseStamped)
    (sent : List Event)
    (h : withinTolerance goal_point global_pose s.xy_goal_tolerance = false)
    (hv : w.isStateValid global_pose = true)
    (hc : (w.getPath global_pose goal_point [6, 6, w.pi]).length ≤ 1)
    (hl : s.local_plan.length ≤ 1) :
    driveTowards w s cmd_vel global_pose plan goal_point sent
      = { ret := false, cmd_vel := cmd_vel,
          planner := { s with valid_local_path := false },
          events := sent ++ [.isStateValid global_pose,
            .getPath global_pose goal_point [6, 6, w.pi],
            .log "Did not find a path in the initial search"] } := by
  have hc2 : ¬ (w.getPath global_pose goal_point [6, 6, w.pi]).length > 1 := by omega
  simp [driveTowards, h, hv, validityGate, hc2, hl]

theorem driveTowards_kept (w : World) (s : Planner) (cmd_vel : Twist)
    (global_pose : PoseStamped) (plan : List PoseStamped) (goal_point : PoseStamped)
    (sent : List Event)
    (h : withinTolerance goal_point global_pose s.xy_goal_tolerance = false)
    (hv : w.isStateValid global_pose = true)
    (hc : (w.getPath global_pose goal_point [6, 6, w.pi]).length ≤ 1)
    (hl : 2 ≤ s.local_plan.length) :
    driveTowards w s cmd_vel global_pose plan goal_point sent
      = { ret := true, cmd_vel := zeroCommand cmd_vel,
          planner := { s with valid_local_path := false,
                              local_plan := pruneLocalPlan global_pose s.local_plan },
          events := sent ++ [.isStateValid global_pose,
            .getPath global_pose goal_point [6, 6, w.pi],
            .publishGlobal plan, .publishLocal (pruneLocalPlan global_pose s.local_plan)] } := by
  have hc2 : ¬ (w.getPath global_pose goal_point [6, 6, w.pi]).length > 1 := by omega
  have hl2 : ¬ s.local_plan.length ≤ 1 := by omega
  have hne : s.local_plan.isEmpty = false := by
    cases hs : s.local_plan with
    | nil => simp [hs] at hl
    | cons a l => rfl
  simp [driveTowards, h, hv, validityGate, hc2, hl2, refreshLocalPlan, hne]

theorem driveTowards_accepted (w : World) (s : Planner) (cmd_vel : Twist)
    (global_pose : PoseStamped) (plan : List PoseStamped) (goal_point : PoseStamped)
    (sent : List Event)
    (h : withinTolerance goal_point global_pose s.xy_goal_tolerance = false)
    (hv : w.isStateValid global_pose = true)
    (hc : 1 < (w.getPath global_pose goal_point [6, 6, w.pi]).length) :
    driveTowards w s cmd_vel global_pose plan goal_point sent
      = { ret := true, cmd_vel := zeroCommand cmd_vel,
          planner := { s with valid_local_path := true,
                              path := w.getPath global_pose goal_point [6, 6, w.pi],
                              local_plan := convertPath w s.global_frame_
                                (w.getPath global_pose goal_point [6, 6, w.pi]) },
          events := sent ++ [.isStateValid global_pose,
            .getPath global_pose goal_point [6, 6, w.pi],
            .publishGlobal plan,
            .publishLocal (convertPath w s.global_frame_
              (w.getPath global_pose goal_point [6, 6, w.pi]))] } := by
  by_cases hl : s.local_plan = []
  · simp [driveTowards, h, hv, validityGate, hc, refreshLocalPlan, hl]
  · simp [driveTowards, h, hv, validityGate, hc, refreshLocalPlan, hl]

/-- The four ways through the far branch, by the collision answer, the size of the
candidate and the size of the held path. -/
theorem driveTowards_far_cases (w : World) (s : Planner) (cmd_vel : Twist)
    (global_pose : PoseStamped) (plan : List PoseStamped) (goal_point : PoseStamped)
    (sent : List Event)
    (h : withinTolerance goal_point global_pose s.xy_goal_tolerance = false) :
    (w.isStateValid global_pose = false ∧
      driveTowards w s cmd_vel global_pose plan goal_point sent
        = { ret := false, cmd_vel := cmd_vel,
            planner := { s with valid_local_path := false, path := [], local_plan := [] },
            events := sent ++ [.isStateValid global_pose, .log "Robot is in collision"] }) ∨
    (w.isStateValid global_pose = true ∧
      (w.getPath global_pose goal_point [6, 6, w.pi]).length ≤ 1 ∧ s.local_plan.length ≤ 1 ∧
      driveTowards w s cmd_vel global_pose plan goal_point sent
        = { ret := false, cmd_vel := cmd_vel,
            planner := { s with valid_local_path := false },
            events := sent ++ [.isStateValid global_pose,
              .getPath global_pose goal_point [6, 6, w.pi],
              .log "Did not find a path in the initial search"] }) ∨
    (w.isStateValid global_pose = true ∧
      (w.getPath global_pose goal_point [6, 6, w.pi]).length ≤ 1 ∧ 2 ≤ s.local_plan.length ∧
      driveTowards w s cmd_vel global_pose plan goal_point sent
        = { ret := true, cmd_vel := zeroCommand cmd_vel,
            planner := { s with valid_local_path := false,
                                local_plan := pruneLocalPlan global_pose s.local_plan },
            events := sent ++ [.isStateValid global_pose,
              .getPath global_pose goal_point [6, 6, w.pi],
              .publishGlobal plan, .publishLocal (pruneLocalPlan global_pose s.local_plan)] }) ∨
    (w.isStateValid global_pose = true ∧
      1 < (w.getPath global_pose goal_point [6, 6, w.pi]).length ∧
      driveTowards w s cmd_vel global_pose plan goal_point sent
        = { ret := true, cmd_vel := zeroCommand cmd_vel,
            planner := { s with valid_local_path := true,
                                path := w.getPath global_pose goal_point [6, 6, w.pi],
                                local_plan := convertPath w s.global_frame_
                                  (w.getPath global_pose goal_point [6, 6, w.pi]) },
            events := sent ++ [.isStateValid global_pose,
              .getPath global_pose goal_point [6, 6, w.pi],
              .publishGlobal plan,
              .publishLocal (convertPath w s.global_frame_
                (w.getPath global_pose goal_point [6, 6, w.pi]))] }) := by
  cases hv : w.isStateValid global_pose with
  | false => exact Or.inl ⟨rfl, driveTowards_collision _ _ _ _ _ _ _ h hv⟩
  | true =>
    by_cases hc : 1 < (w.getPath global_pose goal_point [6, 6, w.pi]).length
    · exact Or.inr (Or.inr (Or.inr ⟨rfl, hc, driveTowards_accepted _ _ _ _ _ _ _ h hv hc⟩))
    · have hc1 : (w.getPath global_pose goal_point [6, 6, w.pi]).length ≤ 1 := by omega
      by_cases hl : s.local_plan.length ≤ 1
      · exact Or.inr (Or.inl ⟨rfl, hc1, hl, driveTowards_no_path _ _ _ _ _ _ _ h hv hc1 hl⟩)
      · have hl2 : 2 ≤ s.local_plan.length := by omega
        exact Or.inr (Or.inr (Or.inl ⟨rfl, hc1, hl2,
          driveTowards_kept _ _ _ _ _ _ _ h hv hc1 hl2⟩))

theorem driveTowards_far_reached (w : World) (s : Planner) (cmd_vel : Twist)
    (global_pose : PoseStamped) (plan : List PoseStamped) (goal_point : PoseStamped)
    (sent : List Event)
    (h : withinTolerance goal_point global_pose s.xy_goal_tolerance = false) :
    (driveTowards w s cmd_vel global_pose plan goal_point sent).planner.reached_goal_
      = s.reached_goal_ := by
  rcases driveTowards_far_cases w s cmd_vel global_pose plan goal_point sent h with
    ⟨_, e⟩ | ⟨_, _, _, e⟩ | ⟨_, _, _, e⟩ | ⟨_, _, e⟩ <;> rw [e]

theorem driveTowards_far_no_goal_log (w : World) (s : Planner) (cmd_vel : Twist)
    (global_pose : PoseStamped) (plan : List PoseStamped) (goal_point : PoseStamped)
    (sent : List Event)
    (h : withinTolerance goal_point global_pose s.xy_goal_tolerance = false)
    (hsent : Event.log "Reach Goal" ∉ sent) :
    Event.log "Reach Goal" ∉
      (driveTowards w s cmd_vel global_pose plan goal_point sent).events := by
  rcases driveTowards_far_cases w s cmd_vel global_pose plan goal_point sent h with
    ⟨_, e⟩ | ⟨_, _, _, e⟩ | ⟨_, _, _, e⟩ | ⟨_, _, e⟩ <;> rw [e] <;> simp [hsent]

theorem driveTowards_goal_test (w : World) (s : Planner) (cmd_vel : Twist)
    (global_pose : PoseStamped) (plan : List PoseStamped) (goal_point : PoseStamped)
    (sent : List Event)
    (hsent : Event.log "Reach Goal" ∉ sent) (hq : ∀ e ∈ sent, e.isProviderQuery = false) :
    (Event.log "Reach Goal" ∈ (driveTowards w s cmd_vel global_pose plan goal_point sent).events
        ↔ withinTolerance goal_point global_pose s.xy_goal_tolerance = true) ∧
    (withinTolerance goal_point global_pose s.xy_goal_tolerance = true →
      (driveTowards w s cmd_vel global_pose plan goal_point sent).planner.reached_goal_ = true ∧
      (driveTowards w s cmd_vel global_pose plan goal_point sent).ret = true ∧
      (driveTowards w s cmd_vel global_pose plan goal_point sent).cmd_vel.linear.x = 0 ∧
      (driveTowards w s cmd_vel global_pose plan goal_point sent).cmd_vel.linear.y = 0 ∧
      (driveTowards w s cmd_vel global_pose plan goal_point sent).cmd_vel.angular.z = 0 ∧
      (driveTowards w s cmd_vel global_pose plan goal_point sent).planner.valid_local_path
        = false ∧
      (driveTowards w s cmd_vel global_pose plan goal_point sent).planner.local_plan
        = s.local_plan ∧
      ∀ e ∈ (driveTowards w s cmd_vel global_pose plan goal_point sent).events,
        e.isProviderQuery = false) ∧
    (¬ withinTolerance goal_point global_pose s.xy_goal_tolerance = true →
      (driveTowards w s cmd_vel global_pose plan goal_point sent).planner.reached_goal_
        = s.reached_goal_) := by
  cases hwt : withinTolerance goal_point global_pose s.xy_goal_tolerance with
  | true =>
    rw [driveTowards_within _ _ _ _ _ _ _ hwt]
    refine ⟨by simp, fun _ => ⟨rfl, rfl, rfl, rfl, rfl, rfl, rfl, ?_⟩, by simp⟩
    intro e he
    rcases List.mem_append.mp he with h1 | h1
    · exact hq e h1
    · rw [List.mem_singleton.mp h1]
      rfl
  | false =>
    refine ⟨?_, by simp, fun _ => driveTowards_far_reached _ _ _ _ _ _ _ hwt⟩
    simp only [Bool.false_eq_true, iff_false]
    exact driveTowards_far_no_goal_log _ _ _ _ _ _ _ hwt hsent

/-! ## Goal arrival -/

/-- C1: on an initialized planner with the pose available, the transform successful and a
transformed, pruned plan of at least two waypoints, the call has a result; with `back` the
last waypoint of that plan, the call takes the goal branch (it logs `Reach Goal` and sets
`reached_goal_ = true`) exactly when the Euclidean distance from the vehicle position to
`back` is at most `xy_goal_tolerance`; in that case it returns `true`, the command has
`linear.x = linear.y = angular.z = 0`, `valid_local_path` is false and no event is a query
of the path provider; otherwise the call leaves `reached_goal_` as it was. -/
theorem computeVelocityCommands_goal_reached_iff (w : World) (s : Planner) (cmd_vel : Twist)
    (global_pose : PoseStamped) (transformed : List PoseStamped)
    (hinit : s.initialized_ = true) (hpose : w.getRobotPose = some global_pose)
    (htr : w.transformGlobalPlan s.global_plan_ global_pose s.global_frame_ = some transformed)
    (hlen : 2 ≤ (applyPrune w s global_pose transformed).1.length) :
    ∃ o back, computeVelocityCommands w s cmd_vel = some o ∧
      (applyPrune w s global_pose transformed).1.getLast? = some back ∧
      (Event.log "Reach Goal" ∈ o.events ↔
        Real.sqrt (((back.pose.position.x - global_pose.pose.position.x : ℚ) : ℝ) ^ 2
          + ((back.pose.position.y - global_pose.pose.position.y : ℚ) : ℝ) ^ 2)
          ≤ (s.xy_goal_tolerance : ℝ)) ∧
      (Real.sqrt (((back.pose.position.x - global_pose.pose.position.x : ℚ) : ℝ) ^ 2
          + ((back.pose.position.y - global_pose.pose.position.y : ℚ) : ℝ) ^ 2)
          ≤ (s.xy_goal_tolerance : ℝ) →
        o.planner.reached_goal_ = true ∧ o.ret = true ∧
        o.cmd_vel.linear.x = 0 ∧ o.cmd_vel.linear.y = 0 ∧ o.cmd_vel.angular.z = 0 ∧
        o.planner.valid_local_path = false ∧
        ∀ e ∈ o.events, e.isProviderQuery = false) ∧
      (¬ Real.sqrt (((back.pose.position.x - global_pose.pose.position.x : ℚ) : ℝ) ^ 2
          + ((back.pose.position.y - global_pose.pose.position.y : ℚ) : ℝ) ^ 2)
          ≤ (s.xy_goal_tolerance : ℝ) →
        o.planner.reached_goal_ = s.reached_goal_) := by
  obtain ⟨back, m, hback, hgoal⟩ := deriveGoal_of_two_le w _ hlen
  have hne : (applyPrune w s global_pose transformed).1 ≠ [] := by
    intro h0
    simp [h0] at hlen
  refine ⟨_, back, computeVelocityCommands_eq_driveTowards w s cmd_vel global_pose _ transformed
    hinit hpose htr hne hgoal, hback, ?_⟩
  rw [← withinTolerance_iff_distance_le back global_pose s.xy_goal_tolerance,
    ← withinTolerance_goalPoint w back m]
  obtain ⟨k1, k2, k3⟩ := driveTowards_goal_test w
    { s with global_plan_ := (applyPrune w s global_pose transformed).2 } cmd_vel global_pose
    (applyPrune w s global_pose transformed).1 (goalPoint w back m)
    [Event.footprint global_pose.pose.position.x global_pose.pose.position.y
      (w.getYaw global_pose.pose.orientation)] (by simp) (by simp [Event.isProviderQuery])
  refine ⟨k1, fun h => ?_, k3⟩
  obtain ⟨a1, a2, a3, a4, a5, a6, _, a8⟩ := k2 h
  exact ⟨a1, a2, a3, a4, a5, a6, a8⟩

theorem computeVelocityCommands_goal_reached_iff_witness :
    (samplePlanner samplePlan []).initialized_ = true ∧
    (sampleWorld (some (wp 1.95 0)) true []).getRobotPose = some (wp 1.95 0) ∧
    2 ≤ (applyPrune (sampleWorld (some (wp 1.95 0)) true []) (samplePlanner samplePlan [])
      (wp 1.95 0) samplePlan).1.length ∧
    (computeVelocityCommands (sampleWorld (some (wp 1.95 0)) true [])
        (samplePlanner samplePlan []) sampleCmd).map
      (fun o => (o.planner.reached_goal_, o.ret, o.cmd_vel)) = some (true, true,
        { linear := { x := 0, y := 0, z := 0 }, angular := { x := 0, y := 0, z := 0 } }) ∧
    ∃ o back, computeVelocityCommands (sampleWorld (some (wp 1.95 0)) true [])
        (samplePlanner samplePlan []) sampleCmd = some o ∧
      (applyPrune (sampleWorld (some (wp 1.95 0)) true []) (samplePlanner samplePlan [])
        (wp 1.95 0) samplePlan).1.getLast? = some back ∧
      (Event.log "Reach Goal" ∈ o.events ↔
        Real.sqrt (((back.pose.position.x - (wp 1.95 0).pose.position.x : ℚ) : ℝ) ^ 2
          + ((back.pose.position.y - (wp 1.95 0).pose.position.y : ℚ) : ℝ) ^ 2)
          ≤ ((samplePlanner samplePlan []).xy_goal_tolerance : ℝ)) ∧
      (Real.sqrt (((back.pose.position.x - (wp 1.95 0).pose.position.x : ℚ) : ℝ) ^ 2
          + ((back.pose.position.y - (wp 1.95 0).pose.position.y : ℚ) : ℝ) ^ 2)
          ≤ ((samplePlanner samplePlan []).xy_goal_tolerance : ℝ) →
        o.planner.reached_goal_ = true ∧ o.ret = true ∧
        o.cmd_vel.linear.x = 0 ∧ o.cmd_vel.linear.y = 0 ∧ o.cmd_vel.angular.z = 0 ∧
        o.planner.valid_local_path = false ∧
        ∀ e ∈ o.events, e.isProviderQuery = false) ∧
      (¬ Real.sqrt (((back.pose.position.x - (wp 1.95 0).pose.position.x : ℚ) : ℝ) ^ 2
          + ((back.pose.position.y - (wp 1.95 0).pose.position.y : ℚ) : ℝ) ^ 2)
          ≤ ((samplePlanner samplePlan []).xy_goal_tolerance : ℝ) →
        o.planner.reached_goal_ = (samplePlanner samplePlan []).reached_goal_) :=
  ⟨rfl, rfl, by simp [applyPrune, sampleWorld, samplePlanner, samplePlan],
   by norm_num [computeVelocityCommands, sampleWorld, samplePlanner, samplePlan, applyPrune,
      deriveGoal, readAt, endOffset, goalPoint, driveTowards, withinTolerance, hypotLe, wp,
      zeroCommand, sampleCmd],
   computeVelocityCommands_goal_reached_iff (sampleWorld (some (wp 1.95 0)) true [])
     (samplePlanner samplePlan []) sampleCmd (wp 1.95 0) samplePlan rfl rfl rfl
     (by simp [applyPrune, sampleWorld, samplePlanner, samplePlan])⟩

/-! ## What a call never touches -/

theorem driveTowards_reached_mono (w : World) (s : Planner) (cmd_vel : Twist)
    (global_pose : PoseStamped) (plan : List PoseStamped) (goal_point : PoseStamped)
    (sent : List Event) (hr : s.reached_goal_ = true) :
    (driveTowards w s cmd_vel global_pose plan goal_point sent).planner.reached_goal_ = true := by
  cases hwt : withinTolerance goal_point global_pose s.xy_goal_tolerance with
  | true => rw [driveTowards_within _ _ _ _ _ _ _ hwt]
  | false => rw [driveTowards_far_reached _ _ _ _ _ _ _ hwt, hr]

theorem driveTowards_initialized (w : World) (s : Planner) (cmd_vel : Twist)
    (global_pose : PoseStamped) (plan : List PoseStamped) (goal_point : PoseStamped)
    (sent : List Event) :
    (driveTowards w s cmd_vel global_pose plan goal_point sent).planner.initialized_
      = s.initialized_ := by
  cases hwt : withinTolerance goal_point global_pose s.xy_goal_tolerance with
  | true => rw [driveTowards_within _ _ _ _ _ _ _ hwt]
  | false =>
    rcases driveTowards_far_cases w s cmd_vel global_pose plan goal_point sent hwt with
      ⟨_, e⟩ | ⟨_, _, _, e⟩ | ⟨_, _, _, e⟩ | ⟨_, _, e⟩ <;> rw [e]

/-- The results of `computeVelocityCommands`, branch by branch of its first half. -/
theorem computeVelocityCommands_cases (w : World) (s : Planner) (cmd_vel : Twist) (o : Outcome)
    (h : computeVelocityCommands w s cmd_vel = some o) :
    (o.planner = s ∧ o.ret = false ∧ o.cmd_vel = cmd_vel ∧
      ∀ e ∈ o.events, e.isProviderQuery = false) ∨
    (∃ global_pose transformed,
      s.initialized_ = true ∧ w.getRobotPose = some global_pose ∧
      w.transformGlobalPlan s.global_plan_ global_pose s.global_frame_ = some transformed ∧
      (applyPrune w s global_pose transformed).1 = [] ∧
      o = { ret := false, cmd_vel := cmd_vel,
            planner := { s with global_plan_ := (applyPrune w s global_pose transformed).2 },
            events := [Event.footprint global_pose.pose.position.x
              global_pose.pose.position.y (w.getYaw global_pose.pose.orientation)] }) ∨
    (∃ global_pose transformed goal_point,
      s.initialized_ = true ∧ w.getRobotPose = some global_pose ∧
      w.transformGlobalPlan s.global_plan_ global_pose s.global_frame_ = some transformed ∧
      (applyPrune w s global_pose transformed).1 ≠ [] ∧
      deriveGoal w (applyPrune w s global_pose transformed).1 = some goal_point ∧
      o = driveTowards w { s with global_plan_ := (applyPrune w s global_pose transformed).2 }
          cmd_vel global_pose (applyPrune w s global_pose transformed).1 goal_point
          [Event.footprint global_pose.pose.position.x global_pose.pose.position.y
            (w.getYaw global_pose.pose.orientation)]) := by
  rcases Bool.eq_false_or_eq_true s.initialized_ with hinit | hinit
  swap
  · left
    simp only [computeVelocityCommands, hinit, Bool.not_false, if_true, Option.some.injEq] at h
    subst h
    simp [Event.isProviderQuery]
  · cases hpose : w.getRobotPose with
    | none =>
      left
      simp only [computeVelocityCommands, hinit, hpose, Bool.not_true, Bool.false_eq_true,
        if_false, Option.some.injEq] at h
      subst h
      simp
    | some global_pose =>
      cases htr : w.transformGlobalPlan s.global_plan_ global_pose s.global_frame_ with
      | none =>
        left
        simp only [computeVelocityCommands, hinit, hpose, htr, Bool.not_true,
          Bool.false_eq_true, if_false, Option.some.injEq] at h
        subst h
        simp [Event.isProviderQuery]
      | some transformed =>
        right
        by_cases hemp : (applyPrune w s global_pose transformed).1 = []
        · left
          refine ⟨global_pose, transformed, hinit, rfl, htr, hemp, ?_⟩
          simp only [computeVelocityCommands, hinit, hpose, htr, hemp, Bool.not_true,
            Bool.false_eq_true, if_false, List.isEmpty_nil, if_true, Option.some.injEq] at h
          rw [← h, hinit]
        · right
          cases hgoal : deriveGoal w (applyPrune w s global_pose transformed).1 with
          | none =>
            have hemp2 : (applyPrune w s global_pose transformed).1.isEmpty = false := by
              cases h2 : (applyPrune w s global_pose transformed).1 with
              | nil => exact absurd h2 hemp
              | cons a l => rfl
            simp [computeVelocityCommands, hinit, hpose, htr, hemp2, hgoal] at h
          | some goal_point =>
            refine ⟨global_pose, transformed, goal_point, hinit, rfl, htr, hemp, hgoal, ?_⟩
            rw [computeVelocityCommands_eq_driveTowards w s cmd_vel global_pose goal_point
              transformed hinit hpose htr hemp hgoal] at h
            exact (Option.some.inj h).symm

theorem computeVelocityCommands_reached_mono (w : World) (s : Planner) (cmd_vel : Twist)
    (o : Outcome) (h : computeVelocityCommands w s cmd_vel = some o)
    (hr : s.reached_goal_ = true) : o.planner.reached_goal_ = true := by
  rcases computeVelocityCommands_cases w s cmd_vel o h with
    ⟨e, _⟩ | ⟨gp, tr, _, _, _, _, e⟩ | ⟨gp, tr, g, _, _, _, _, _, e⟩
  · rw [e, hr]
  · rw [e]
    exact hr
  · rw [e]
    exact driveTowards_reached_mono _ _ _ _ _ _ _ hr

theorem computeVelocityCommands_initialized (w : World) (s : Planner) (cmd_vel : Twist)
    (o : Outcome) (h : computeVelocityCommands w s cmd_vel = some o) :
    o.planner.initialized_ = s.initialized_ := by
  rcases computeVelocityCommands_cases w s cmd_vel o h with
    ⟨e, _⟩ | ⟨gp, tr, _, _, _, _, e⟩ | ⟨gp, tr, g, _, _, _, _, _, e⟩
  · rw [e]
  · rw [e]
  · rw [e]
    exact driveTowards_initialized _ _ _ _ _ _ _

/-- The only call without a result: initialized, pose available, transform successful,
and a transformed, pruned plan of exactly one waypoint. -/
theorem computeVelocityCommands_eq_none_iff (w : World) (s : Planner) (cmd_vel : Twist) :
    computeVelocityCommands w s cmd_vel = none ↔
      s.initialized_ = true ∧ ∃ global_pose transformed,
        w.getRobotPose = some global_pose ∧
        w.transformGlobalPlan s.global_plan_ global_pose s.global_frame_ = some transformed ∧
        (applyPrune w s global_pose transformed).1.length = 1 := by
  constructor
  · intro h
    rcases Bool.eq_false_or_eq_true s.initialized_ with hinit | hinit
    swap
    · simp [computeVelocityCommands, hinit] at h
    · refine ⟨hinit, ?_⟩
      cases hpose : w.getRobotPose with
      | none => simp [computeVelocityCommands, hinit, hpose] at h
      | some global_pose =>
        cases htr : w.transformGlobalPlan s.global_plan_ global_pose s.global_frame_ with
        | none => simp [computeVelocityCommands, hinit, hpose, htr] at h
        | some transformed =>
          refine ⟨global_pose, transformed, rfl, htr, ?_⟩
          by_contra hlen
          cases hp : (applyPrune w s global_pose transformed).1 with
          | nil => simp [computeVelocityCommands, hinit, hpose, htr, hp] at h
          | cons a l =>
            have h2 : 2 ≤ (applyPrune w s global_pose transformed).1.length := by
              rw [hp] at hlen ⊢
              cases l with
              | nil => simp at hlen
              | cons b l2 => simp
            obtain ⟨back, m, _, hgoal⟩ := deriveGoal_of_two_le w _ h2
            have hne : (applyPrune w s global_pose transformed).1 ≠ [] := by
              rw [hp]
              exact List.cons_ne_nil a l
            rw [computeVelocityCommands_eq_driveTowards w s cmd_vel global_pose _ transformed
              hinit hpose htr hne hgoal] at h
            exact Option.noConfusion h
  · rintro ⟨hinit, global_pose, transformed, hpose, htr, hlen⟩
    obtain ⟨p, hp⟩ := List.length_eq_one.mp hlen
    simp [computeVelocityCommands, hinit, hpose, htr, hp, deriveGoal_singleton]

/-! ## Goal-reached is sticky -/

theorem Call.run_keeps_reached (c : Call) (s s1 : Planner) (hc : c.isSetPlan = false)
    (hrun : c.run s = some s1) (hinit : s.initialized_ = true) (hr : s.reached_goal_ = true) :
    s1.initialized_ = true ∧ s1.reached_goal_ = true := by
  cases c with
  | compute w cmd_vel =>
    simp only [Call.run, Option.map_eq_some'] at hrun
    obtain ⟨o, ho, rfl⟩ := hrun
    exact ⟨by rw [computeVelocityCommands_initialized w s cmd_vel o ho, hinit],
      computeVelocityCommands_reached_mono w s cmd_vel o ho hr⟩
  | askGoal =>
    simp only [Call.run, Option.some.injEq] at hrun
    subst hrun
    exact ⟨hinit, hr⟩
  | newPlan w plan => simp [Call.isSetPlan] at hc

/-- C2: from an initialized planner with `reached_goal_ = true`, along every sequence of
`computeVelocityCommands` and `isGoalReached` calls that holds no `setPlan`, whatever the
collaborators answer, the planner after each call still has `reached_goal_ = true` (and
`isGoalReached` answers `true`); a `setPlan` on it sets the flag back to `false`. -/
theorem reached_goal_sticky (s : Planner) (calls : List Call)
    (hinit : s.initialized_ = true) (hreached : s.reached_goal_ = true)
    (hno : ∀ c ∈ calls, c.isSetPlan = false) :
    ∀ s1 ∈ plannersAfter s calls,
      s1.reached_goal_ = true ∧ (isGoalReached s1).1 = true ∧
      ∀ w plan, (setPlan w s1 plan).planner.reached_goal_ = false := by
  induction calls generalizing s with
  | nil =>
    intro s1 h1
    simp [plannersAfter] at h1
  | cons c cs ih =>
    intro s1 h1
    cases hrun : c.run s with
    | none => simp [plannersAfter, hrun] at h1
    | some s2 =>
      obtain ⟨hi2, hr2⟩ := Call.run_keeps_reached c s s2
        (hno c (List.mem_cons_self c cs)) hrun hinit hreached
      simp only [plannersAfter, hrun, List.mem_cons] at h1
      rcases h1 with h1 | h1
      · subst h1
        refine ⟨hr2, by simp [isGoalReached, hi2, hr2], ?_⟩
        intro w plan
        simp [setPlan, hi2]
      · exact ih s2 hi2 hr2 (fun c2 hc2 => hno c2 (List.mem_cons_of_mem c hc2)) s1 h1

theorem reached_goal_sticky_witness :
    arrivedPlanner.initialized_ = true ∧ arrivedPlanner.reached_goal_ = true ∧
    (∀ c ∈ [Call.compute (sampleWorld (some (wp 0 0)) true sampleCandidate) sampleCmd,
        Call.askGoal, Call.compute (sampleWorld none true []) sampleCmd],
      c.isSetPlan = false) ∧
    (plannersAfter arrivedPlanner
      [Call.compute (sampleWorld (some (wp 0 0)) true sampleCandidate) sampleCmd,
        Call.askGoal, Call.compute (sampleWorld none true []) sampleCmd]).length = 3 ∧
    ∀ s1 ∈ plannersAfter arrivedPlanner
      [Call.compute (sampleWorld (some (wp 0 0)) true sampleCandidate) sampleCmd,
        Call.askGoal, Call.compute (sampleWorld none true []) sampleCmd],
      s1.reached_goal_ = true ∧ (isGoalReached s1).1 = true ∧
      ∀ w plan, (setPlan w s1 plan).planner.reached_goal_ = false :=
  ⟨rfl, rfl, by simp [Call.isSetPlan],
   by norm_num [plannersAfter, Call.run, computeVelocityCommands, sampleWorld, arrivedPlanner,
      samplePlanner, samplePlan, applyPrune, deriveGoal, readAt, endOffset, goalPoint,
      driveTowards, withinTolerance, hypotLe, wp, validityGate, sampleCandidate,
      refreshLocalPlan, convertPath, toWaypoint, pruneLocalPlan, distance_sq, List.enum,
      List.enumFrom],
   reached_goal_sticky arrivedPlanner _ rfl rfl (by simp [Call.isSetPlan])⟩

/-! ## The pruning rule, as the code has it -/

/-- C3 (the rule as worded fails): with the vehicle at the origin and the plan
`[(1,0), (0,0)]`, `pruneLocalPlan` removes `(1,0)`, whose squared distance 1 is not below
0.25, and stops at `(0,0)`, whose squared distance 0 is below 0.25; the rule as worded
removes nothing. -/
theorem pruneLocalPlan_not_as_worded :
    pruneLocalPlan (wp 0 0) [wp 1 0, wp 0 0] = [wp 0 0] ∧
    ¬ distance_sq (wp 0 0) (wp 1 0) < 1 / 4 ∧
    distance_sq (wp 0 0) (wp 0 0) < 1 / 4 ∧
    pruneAsWorded (wp 0 0) [wp 1 0, wp 0 0] = [wp 1 0, wp 0 0] ∧
    pruneLocalPlan (wp 0 0) [wp 1 0, wp 0 0] ≠ pruneAsWorded (wp 0 0) [wp 1 0, wp 0 0] := by
  refine ⟨?_, ?_, ?_, ?_, ?_⟩ <;>
    norm_num [pruneLocalPlan, pruneAsWorded, distance_sq, wp, List.dropWhile]

/-- C3 (amended): `pruneLocalPlan` removes a waypoint only if its squared distance to the
vehicle position is not below 0.25, and it stops at (and keeps) the first waypoint from the
front whose squared distance is below 0.25: the result is the plan with its longest front
run of waypoints with `distance_sq ≥ 0.25` dropped. -/
theorem pruneLocalPlan_rule (global_pose : PoseStamped) (plan : List PoseStamped) :
    pruneLocalPlan global_pose plan
      = plan.dropWhile (fun w => decide (1 / 4 ≤ distance_sq global_pose w)) ∧
    ∃ removed, plan = removed ++ pruneLocalPlan global_pose plan ∧
      (∀ w ∈ removed, ¬ distance_sq global_pose w < 1 / 4) ∧
      ∀ w, (pruneLocalPlan global_pose plan).head? = some w →
        distance_sq global_pose w < 1 / 4 := by
  refine ⟨pruneLocalPlan_eq_dropWhile global_pose plan, ?_⟩
  induction plan with
  | nil => exact ⟨[], rfl, by simp, by simp [pruneLocalPlan]⟩
  | cons a rest ih =>
    by_cases h : distance_sq global_pose a < 1 / 4
    · refine ⟨[], ?_, by simp, ?_⟩
      · rw [pruneLocalPlan, if_pos h]
        rfl
      · intro w hw
        rw [pruneLocalPlan, if_pos h] at hw
        simp only [List.head?_cons, Option.some.injEq] at hw
        rw [← hw]
        exact h
    · obtain ⟨removed, h1, h2, h3⟩ := ih
      refine ⟨a :: removed, ?_, ?_, ?_⟩
      · rw [pruneLocalPlan, if_neg h, List.cons_append, ← h1]
      · intro w hw
        rcases List.mem_cons.mp hw with hw | hw
        · rw [hw]
          exact h
        · exact h2 w hw
      · intro w hw
        rw [pruneLocalPlan, if_neg h] at hw
        exact h3 w hw

theorem pruneLocalPlan_rule_witness :
    pruneLocalPlan (wp 0 0) [wp 1 0, wp 0 0, wp 2 0] = [wp 0 0, wp 2 0] ∧
    (pruneLocalPlan (wp 0 0) [wp 1 0, wp 0 0, wp 2 0]
      = [wp 1 0, wp 0 0, wp 2 0].dropWhile (fun w => decide (1 / 4 ≤ distance_sq (wp 0 0) w)) ∧
    ∃ removed, [wp 1 0, wp 0 0, wp 2 0]
        = removed ++ pruneLocalPlan (wp 0 0) [wp 1 0, wp 0 0, wp 2 0] ∧
      (∀ w ∈ removed, ¬ distance_sq (wp 0 0) w < 1 / 4) ∧
      ∀ w, (pruneLocalPlan (wp 0 0) [wp 1 0, wp 0 0, wp 2 0]).head? = some w →
        distance_sq (wp 0 0) w < 1 / 4) :=
  ⟨by norm_num [pruneLocalPlan, distance_sq, wp],
   pruneLocalPlan_rule (wp 0 0) [wp 1 0, wp 0 0, wp 2 0]⟩

/-- C4: the result of `pruneLocalPlan` is a contiguous suffix of the input plan, same
waypoints in the same order: for some `k` it is the plan without its first `k` waypoints,
so every removed waypoint precedes every retained one. -/
theorem pruneLocalPlan_front_to_back (global_pose : PoseStamped) (plan : List PoseStamped) :
    pruneLocalPlan global_pose plan <:+ plan ∧
    ∃ k, k ≤ plan.length ∧ pruneLocalPlan global_pose plan = plan.drop k ∧
      plan = plan.take k ++ pruneLocalPlan global_pose plan := by
  refine ⟨pruneLocalPlan_suffix global_pose plan, ?_⟩
  obtain ⟨removed, h⟩ := pruneLocalPlan_suffix global_pose plan
  refine ⟨removed.length, ?_, ?_, ?_⟩
  · rw [← h, List.length_append]
    exact Nat.le_add_right _ _
  · conv_rhs => rw [← h]
    simp
  · have ht : plan.take removed.length = removed := by
      conv_lhs => rw [← h]
      simp
    rw [ht, h]

/-! ## The validity gate -/

theorem deriveGoal_ne_nil (w : World) (plan : List PoseStamped) (goal_point : PoseStamped)
    (h : deriveGoal w plan = some goal_point) : plan ≠ [] := by
  intro h0
  simp [h0, deriveGoal] at h

theorem convertPath_length (w : World) (frame : String) (path : Trajectory) :
    (convertPath w frame path).length = path.length := by
  simp [convertPath]

theorem convertPath_getElem? (w : World) (frame : String) (path : Trajectory) (i : Nat) :
    (convertPath w frame path)[i]? = (path[i]?).map (toWaypoint w frame i) := by
  simp only [convertPath, List.getElem?_map, List.getElem?_enum]
  cases path[i]? <;> rfl

/-- C5 (the previous path is not left as it was): the planner holds
`[(0,0), (0.6,0), (1.2,0)]`, the vehicle is at `(0.6,0)`, far from the goal `(2,0)` and
collision free, and the provider returns no point; the call succeeds and the local path
it leaves and publishes is `[(0.6,0), (1.2,0)]`. -/
theorem kept_path_loses_its_front :
    (computeVelocityCommands (sampleWorld (some (wp 0.6 0)) true [])
        (samplePlanner samplePlan [wp 0 0, wp 0.6 0, wp 1.2 0]) sampleCmd).map
      (fun o => (o.ret, o.planner.local_plan, o.events.getLast?))
      = some (true, [wp 0.6 0, wp 1.2 0], some (Event.publishLocal [wp 0.6 0, wp 1.2 0])) ∧
    [wp 0.6 0, wp 1.2 0] ≠ (samplePlanner samplePlan [wp 0 0, wp 0.6 0, wp 1.2 0]).local_plan ∧
    withinTolerance (wp 2 0) (wp 0.6 0)
      (samplePlanner samplePlan [wp 0 0, wp 0.6 0, wp 1.2 0]).xy_goal_tolerance = false ∧
    (sampleWorld (some (wp 0.6 0)) true []).isStateValid (wp 0.6 0) = true ∧
    ((sampleWorld (some (wp 0.6 0)) true []).getPath (wp 0.6 0) (wp 2 0) [6, 6, 355 / 113]).length
      ≤ 1 ∧
    2 ≤ (samplePlanner samplePlan [wp 0 0, wp 0.6 0, wp 1.2 0]).local_plan.length := by
  refine ⟨?_, ?_, ?_, ?_, ?_, ?_⟩ <;>
    norm_num [computeVelocityCommands, sampleWorld, samplePlanner, samplePlan, applyPrune,
      deriveGoal, readAt, endOffset, goalPoint, driveTowards, withinTolerance, hypotLe, wp,
      validityGate, refreshLocalPlan, pruneLocalPlan, distance_sq, zeroCommand, sampleCmd]

/-- C5 (amended): when a call reaches the validity gate, the provider returns at most one
point and the held local path has at least two, the call succeeds and the local path it
leaves and publishes is the held one pruned against the current pose by `pruneLocalPlan`:
a suffix of the held path, in the same order, and the held path itself when its first
waypoint has `distance_sq < 0.25` to the vehicle. -/
theorem computeVelocityCommands_keeps_pruned_path (w : World) (s : Planner) (cmd_vel : Twist)
    (global_pose goal_point : PoseStamped) (transformed : List PoseStamped)
    (hinit : s.initialized_ = true) (hpose : w.getRobotPose = some global_pose)
    (htr : w.transformGlobalPlan s.global_plan_ global_pose s.global_frame_ = some transformed)
    (hgoal : deriveGoal w (applyPrune w s global_pose transformed).1 = some goal_point)
    (hfar : withinTolerance goal_point global_pose s.xy_goal_tolerance = false)
    (hfree : w.isStateValid global_pose = true)
    (hcand : (w.getPath global_pose goal_point [6, 6, w.pi]).length ≤ 1)
    (hheld : 2 ≤ s.local_plan.length) :
    ∃ o, computeVelocityCommands w s cmd_vel = some o ∧ o.ret = true ∧
      o.planner.local_plan = pruneLocalPlan global_pose s.local_plan ∧
      o.events.getLast? = some (Event.publishLocal (pruneLocalPlan global_pose s.local_plan)) ∧
      o.planner.local_plan <:+ s.local_plan ∧
      ∀ first rest, s.local_plan = first :: rest → distance_sq global_pose first < 1 / 4 →
        o.planner.local_plan = s.local_plan := by
  refine ⟨_, computeVelocityCommands_eq_driveTowards w s cmd_vel global_pose goal_point
    transformed hinit hpose htr (deriveGoal_ne_nil w _ _ hgoal) hgoal, ?_⟩
  rw [driveTowards_kept w { s with global_plan_ := (applyPrune w s global_pose transformed).2 }
    cmd_vel global_pose _ goal_point _ hfar hfree hcand hheld]
  refine ⟨rfl, rfl, by simp, pruneLocalPlan_suffix global_pose s.local_plan, ?_⟩
  intro first rest hs hnear
  show pruneLocalPlan global_pose s.local_plan = s.local_plan
  rw [hs]
  exact pruneLocalPlan_of_head_near global_pose first rest hnear

theorem computeVelocityCommands_keeps_pruned_path_witness :
    (samplePlanner samplePlan [wp 0 0, wp 0.6 0, wp 1.2 0]).initialized_ = true ∧
    2 ≤ (samplePlanner samplePlan [wp 0 0, wp 0.6 0, wp 1.2 0]).local_plan.length ∧
    ∃ o, computeVelocityCommands (sampleWorld (some (wp 0.3 0)) true [])
        (samplePlanner samplePlan [wp 0 0, wp 0.6 0, wp 1.2 0]) sampleCmd = some o ∧
      o.ret = true ∧
      o.planner.local_plan = pruneLocalPlan (wp 0.3 0)
        (samplePlanner samplePlan [wp 0 0, wp 0.6 0, wp 1.2 0]).local_plan ∧
      o.events.getLast? = some (Event.publishLocal (pruneLocalPlan (wp 0.3 0)
        (samplePlanner samplePlan [wp 0 0, wp 0.6 0, wp 1.2 0]).local_plan)) ∧
      o.planner.local_plan <:+ (samplePlanner samplePlan [wp 0 0, wp 0.6 0, wp 1.2 0]).local_plan ∧
      ∀ first rest,
        (samplePlanner samplePlan [wp 0 0, wp 0.6 0, wp 1.2 0]).local_plan = first :: rest →
        distance_sq (wp 0.3 0) first < 1 / 4 →
        o.planner.local_plan = (samplePlanner samplePlan [wp 0 0, wp 0.6 0, wp 1.2 0]).local_plan :=
  ⟨rfl, by simp [samplePlanner],
   computeVelocityCommands_keeps_pruned_path (sampleWorld (some (wp 0.3 0)) true [])
     (samplePlanner samplePlan [wp 0 0, wp 0.6 0, wp 1.2 0]) sampleCmd (wp 0.3 0) (wp 2 0)
     samplePlan rfl rfl rfl
     (by norm_num [deriveGoal, applyPrune, sampleWorld, samplePlanner, samplePlan, readAt,
        endOffset, goalPoint, wp])
     (by norm_num [withinTolerance, hypotLe, wp, samplePlanner])
     rfl (by simp [sampleWorld]) (by simp [samplePlanner])⟩

/-- C6: when a call reaches the validity gate, the provider returns at most one point and
the held local path has at most one point, the call returns `false` and leaves the held
local path and `reached_goal_` (and the command and the held trajectory) as they were. -/
theorem computeVelocityCommands_no_usable_path (w : World) (s : Planner) (cmd_vel : Twist)
    (global_pose goal_point : PoseStamped) (transformed : List PoseStamped)
    (hinit : s.initialized_ = true) (hpose : w.getRobotPose = some global_pose)
    (htr : w.transformGlobalPlan s.global_plan_ global_pose s.global_frame_ = some transformed)
    (hgoal : deriveGoal w (applyPrune w s global_pose transformed).1 = some goal_point)
    (hfar : withinTolerance goal_point global_pose s.xy_goal_tolerance = false)
    (hfree : w.isStateValid global_pose = true)
    (hcand : (w.getPath global_pose goal_point [6, 6, w.pi]).length ≤ 1)
    (hheld : s.local_plan.length ≤ 1) :
    ∃ o, computeVelocityCommands w s cmd_vel = some o ∧ o.ret = false ∧
      o.planner.local_plan = s.local_plan ∧ o.planner.reached_goal_ = s.reached_goal_ ∧
      o.planner.path = s.path ∧ o.cmd_vel = cmd_vel ∧
      ∀ plan, Event.publishLocal plan ∉ o.events := by
  refine ⟨_, computeVelocityCommands_eq_driveTowards w s cmd_vel global_pose goal_point
    transformed hinit hpose htr (deriveGoal_ne_nil w _ _ hgoal) hgoal, ?_⟩
  rw [driveTowards_no_path w { s with global_plan_ := (applyPrune w s global_pose transformed).2 }
    cmd_vel global_pose _ goal_point _ hfar hfree hcand hheld]
  refine ⟨rfl, rfl, rfl, rfl, rfl, ?_⟩
  intro plan
  simp

theorem computeVelocityCommands_no_usable_path_witness :
    (samplePlanner samplePlan [wp 0 0]).initialized_ = true ∧
    (samplePlanner samplePlan [wp 0 0]).local_plan.length ≤ 1 ∧
    ∃ o, computeVelocityCommands (sampleWorld (some (wp 0 0)) true [{ x := 0, y := 0, th := 0 }])
        (samplePlanner samplePlan [wp 0 0]) sampleCmd = some o ∧ o.ret = false ∧
      o.planner.local_plan = (samplePlanner samplePlan [wp 0 0]).local_plan ∧
      o.planner.reached_goal_ = (samplePlanner samplePlan [wp 0 0]).reached_goal_ ∧
      o.planner.path = (samplePlanner samplePlan [wp 0 0]).path ∧ o.cmd_vel = sampleCmd ∧
      ∀ plan, Event.publishLocal plan ∉ o.events :=
  ⟨rfl, by simp [samplePlanner],
   computeVelocityCommands_no_usable_path
     (sampleWorld (some (wp 0 0)) true [{ x := 0, y := 0, th := 0 }])
     (samplePlanner samplePlan [wp 0 0]) sampleCmd (wp 0 0) (wp 2 0) samplePlan rfl rfl rfl
     (by norm_num [deriveGoal, applyPrune, sampleWorld, samplePlanner, samplePlan, readAt,
        endOffset, goalPoint, wp])
     (by norm_num [withinTolerance, hypotLe, wp, samplePlanner])
     rfl (by simp [sampleWorld]) (by simp [samplePlanner])⟩

/-- C7 (the accepted candidate is not pruned): the vehicle is at the origin, the provider
returns `[(3,0), (0,0), (0.2,0)]`; the call succeeds and the local path it leaves and
publishes holds all three waypoints, while `pruneLocalPlan` against the vehicle pose would
have dropped `(3,0)`. -/
theorem accepted_candidate_is_not_pruned :
    (computeVelocityCommands (sampleWorld (some (wp 0 0)) true farStartCandidate)
        (samplePlanner samplePlan [wp 9 9]) sampleCmd).map
      (fun o => (o.ret, o.planner.local_plan, o.events.getLast?))
      = some (true, [wp 3 0, wp 0 0, wp 0.2 0],
          some (Event.publishLocal [wp 3 0, wp 0 0, wp 0.2 0])) ∧
    pruneLocalPlan (wp 0 0)
        (convertPath (sampleWorld (some (wp 0 0)) true farStartCandidate) "map" farStartCandidate)
      = [wp 0 0, wp 0.2 0] ∧
    [wp 3 0, wp 0 0, wp 0.2 0] ≠ pruneLocalPlan (wp 0 0)
        (convertPath (sampleWorld (some (wp 0 0)) true farStartCandidate) "map"
          farStartCandidate) := by
  refine ⟨?_, ?_, ?_⟩ <;>
    norm_num [computeVelocityCommands, sampleWorld, samplePlanner, samplePlan, applyPrune,
      deriveGoal, readAt, endOffset, goalPoint, driveTowards, withinTolerance, hypotLe, wp,
      validityGate, refreshLocalPlan, pruneLocalPlan, distance_sq, zeroCommand, sampleCmd,
      farStartCandidate, convertPath, toWaypoint, List.enum, List.enumFrom]

/-- C7 (amended): when a call reaches the validity gate and the provider returns a
candidate with more than one point, the call returns `true` and the local path it leaves
and publishes is the candidate converted point by point (x, y and heading of each point,
in order), not pruned; nothing of the previously held local path remains in it. -/
theorem computeVelocityCommands_accepts_candidate (w : World) (s : Planner) (cmd_vel : Twist)
    (global_pose goal_point : PoseStamped) (transformed : List PoseStamped)
    (hinit : s.initialized_ = true) (hpose : w.getRobotPose = some global_pose)
    (htr : w.transformGlobalPlan s.global_plan_ global_pose s.global_frame_ = some transformed)
    (hgoal : deriveGoal w (applyPrune w s global_pose transformed).1 = some goal_point)
    (hfar : withinTolerance goal_point global_pose s.xy_goal_tolerance = false)
    (hfree : w.isStateValid global_pose = true)
    (hcand : 1 < (w.getPath global_pose goal_point [6, 6, w.pi]).length) :
    ∃ o, computeVelocityCommands w s cmd_vel = some o ∧ o.ret = true ∧
      o.planner.local_plan
        = convertPath w s.global_frame_ (w.getPath global_pose goal_point [6, 6, w.pi]) ∧
      o.events.getLast? = some (Event.publishLocal o.planner.local_plan) ∧
      o.planner.path = w.getPath global_pose goal_point [6, 6, w.pi] ∧
      o.planner.valid_local_path = true ∧
      o.planner.local_plan.length = (w.getPath global_pose goal_point [6, 6, w.pi]).length ∧
      ∀ (i : Nat) (p : TrajPoint),
        (w.getPath global_pose goal_point [6, 6, w.pi])[i]? = some p →
        ∃ q : PoseStamped, o.planner.local_plan[i]? = some q ∧
          q.pose.position.x = p.x ∧ q.pose.position.y = p.y ∧ q.pose.position.z = 0 ∧
          q.pose.orientation = w.quaternionFromYaw p.th ∧
          q.header.frame_id = s.global_frame_ := by
  refine ⟨_, computeVelocityCommands_eq_driveTowards w s cmd_vel global_pose goal_point
    transformed hinit hpose htr (deriveGoal_ne_nil w _ _ hgoal) hgoal, ?_⟩
  rw [driveTowards_accepted w
    { s with global_plan_ := (applyPrune w s global_pose transformed).2 }
    cmd_vel global_pose _ goal_point _ hfar hfree hcand]
  refine ⟨rfl, rfl, by simp, rfl, rfl, convertPath_length _ _ _, ?_⟩
  intro i p hp
  refine ⟨toWaypoint w s.global_frame_ i p, ?_, rfl, rfl, rfl, rfl, rfl⟩
  show (convertPath w s.global_frame_ (w.getPath global_pose goal_point [6, 6, w.pi]))[i]? = _
  rw [convertPath_getElem?, hp]
  rfl

theorem computeVelocityCommands_accepts_candidate_witness :
    (samplePlanner samplePlan [wp 9 9]).initialized_ = true ∧
    1 < ((sampleWorld (some (wp 0 0)) true sampleCandidate).getPath (wp 0 0) (wp 2 0)
      [6, 6, (sampleWorld (some (wp 0 0)) true sampleCandidate).pi]).length ∧
    (computeVelocityCommands (sampleWorld (some (wp 0 0)) true sampleCandidate)
        (samplePlanner samplePlan [wp 9 9]) sampleCmd).map (fun o => o.planner.local_plan)
      = some [wp 0 0, wp 0.2 0, wp 0.4 0] ∧
    ∃ o, computeVelocityCommands (sampleWorld (some (wp 0 0)) true sampleCandidate)
        (samplePlanner samplePlan [wp 9 9]) sampleCmd = some o ∧ o.ret = true ∧
      o.planner.local_plan
        = convertPath (sampleWorld (some (wp 0 0)) true sampleCandidate)
            (samplePlanner samplePlan [wp 9 9]).global_frame_
            ((sampleWorld (some (wp 0 0)) true sampleCandidate).getPath (wp 0 0) (wp 2 0)
              [6, 6, (sampleWorld (some (wp 0 0)) true sampleCandidate).pi]) ∧
      o.events.getLast? = some (Event.publishLocal o.planner.local_plan) ∧
      o.planner.path = (sampleWorld (some (wp 0 0)) true sampleCandidate).getPath (wp 0 0)
        (wp 2 0) [6, 6, (sampleWorld (some (wp 0 0)) true sampleCandidate).pi] ∧
      o.planner.valid_local_path = true ∧
      o.planner.local_plan.length
        = ((sampleWorld (some (wp 0 0)) true sampleCandidate).getPath (wp 0 0) (wp 2 0)
            [6, 6, (sampleWorld (some (wp 0 0)) true sampleCandidate).pi]).length ∧
      ∀ (i : Nat) (p : TrajPoint),
        ((sampleWorld (some (wp 0 0)) true sampleCandidate).getPath (wp 0 0) (wp 2 0)
          [6, 6, (sampleWorld (some (wp 0 0)) true sampleCandidate).pi])[i]? = some p →
        ∃ q : PoseStamped, o.planner.local_plan[i]? = some q ∧
          q.pose.position.x = p.x ∧ q.pose.position.y = p.y ∧ q.pose.position.z = 0 ∧
          q.pose.orientation
            = (sampleWorld (some (wp 0 0)) true sampleCandidate).quaternionFromYaw p.th ∧
          q.header.frame_id = (samplePlanner samplePlan [wp 9 9]).global_frame_ :=
  ⟨rfl, by simp [sampleWorld, sampleCandidate],
   by norm_num [computeVelocityCommands, sampleWorld, samplePlanner, samplePlan, applyPrune,
      deriveGoal, readAt, endOffset, goalPoint, driveTowards, withinTolerance, hypotLe, wp,
      validityGate, refreshLocalPlan, pruneLocalPlan, distance_sq, zeroCommand, sampleCmd,
      sampleCandidate, convertPath, toWaypoint, List.enum, List.enumFrom],
   computeVelocityCommands_accepts_candidate (sampleWorld (some (wp 0 0)) true sampleCandidate)
     (samplePlanner samplePlan [wp 9 9]) sampleCmd (wp 0 0) (wp 2 0) samplePlan rfl rfl rfl
     (by norm_num [deriveGoal, applyPrune, sampleWorld, samplePlanner, samplePlan, readAt,
        endOffset, goalPoint, wp])
     (by norm_num [withinTolerance, hypotLe, wp, samplePlanner])
     rfl (by simp [sampleWorld, sampleCandidate])⟩

/-! ## `setPlan` -/

/-- C8: `setPlan` returns `false` exactly when the planner is not initialized, and then
leaves the planner as it was; on an initialized planner it returns `true` for every plan,
whatever the reset service answers, and afterwards `global_plan_` is the given plan,
`local_plan` and `path` are empty, and `reached_goal_` and `valid_local_path` are false. -/
theorem setPlan_contract (w : World) (s : Planner) (plan : List PoseStamped) :
    ((setPlan w s plan).ret = false ↔ s.initialized_ = false) ∧
    (s.initialized_ = false → (setPlan w s plan).planner = s) ∧
    (s.initialized_ = true →
      (setPlan w s plan).ret = true ∧
      (setPlan w s plan).planner.global_plan_ = plan ∧
      (setPlan w s plan).planner.local_plan = [] ∧
      (setPlan w s plan).planner.path = [] ∧
      (setPlan w s plan).planner.reached_goal_ = false ∧
      (setPlan w s plan).planner.valid_local_path = false ∧
      (setPlan w s plan).planner.initialized_ = true ∧
      ∀ w2 : World, (setPlan w2 s plan).ret = (setPlan w s plan).ret ∧
        (setPlan w2 s plan).planner = (setPlan w s plan).planner) := by
  rcases Bool.eq_false_or_eq_true s.initialized_ with h | h
  · simp [setPlan, h]
  · simp [setPlan, h]

theorem setPlan_contract_witness :
    (samplePlanner [] [wp 0 0]).initialized_ = true ∧
    ({ samplePlanner [] [wp 0 0] with initialized_ := false } : Planner).initialized_ = false ∧
    (setPlan (sampleWorld none true []) arrivedPlanner samplePlan).planner
      = samplePlanner samplePlan [] ∧
    (setPlan { sampleWorld none true [] with resetCall := false }
        { arrivedPlanner with local_plan := [wp 0 0, wp 1 0], path := sampleCandidate,
                              valid_local_path := true } [wp 3 3]).planner
      = samplePlanner [wp 3 3] [] ∧
    (((setPlan (sampleWorld none true []) (samplePlanner [] [wp 0 0]) samplePlan).ret = false ↔
        (samplePlanner [] [wp 0 0]).initialized_ = false) ∧
      ((samplePlanner [] [wp 0 0]).initialized_ = false →
        (setPlan (sampleWorld none true []) (samplePlanner [] [wp 0 0]) samplePlan).planner
          = samplePlanner [] [wp 0 0]) ∧
      ((samplePlanner [] [wp 0 0]).initialized_ = true →
        (setPlan (sampleWorld none true []) (samplePlanner [] [wp 0 0]) samplePlan).ret = true ∧
        (setPlan (sampleWorld none true []) (samplePlanner [] [wp 0 0])
          samplePlan).planner.global_plan_ = samplePlan ∧
        (setPlan (sampleWorld none true []) (samplePlanner [] [wp 0 0])
          samplePlan).planner.local_plan = [] ∧
        (setPlan (sampleWorld none true []) (samplePlanner [] [wp 0 0])
          samplePlan).planner.path = [] ∧
        (setPlan (sampleWorld none true []) (samplePlanner [] [wp 0 0])
          samplePlan).planner.reached_goal_ = false ∧
        (setPlan (sampleWorld none true []) (samplePlanner [] [wp 0 0])
          samplePlan).planner.valid_local_path = false ∧
        (setPlan (sampleWorld none true []) (samplePlanner [] [wp 0 0])
          samplePlan).planner.initialized_ = true ∧
        ∀ w2 : World, (setPlan w2 (samplePlanner [] [wp 0 0]) samplePlan).ret
            = (setPlan (sampleWorld none true []) (samplePlanner [] [wp 0 0]) samplePlan).ret ∧
          (setPlan w2 (samplePlanner [] [wp 0 0]) samplePlan).planner
            = (setPlan (sampleWorld none true []) (samplePlanner [] [wp 0 0])
                samplePlan).planner)) :=
  ⟨rfl, rfl, by simp [setPlan, arrivedPlanner, samplePlanner],
   by simp [setPlan, arrivedPlanner, samplePlanner],
   setPlan_contract (sampleWorld none true []) (samplePlanner [] [wp 0 0]) samplePlan⟩

/-! ## After goal arrival -/

/-- C9 (planning resumes after goal arrival): a first call with the vehicle at `(1.95,0)`
sets `reached_goal_ = true`; a second call on the planner it leaves, with no `setPlan` in
between and the vehicle seen at `(0,0)`, queries the collision predicate and requests a
path, and replaces the empty local path by three waypoints. -/
theorem planning_resumes_after_goal :
    (computeVelocityCommands (sampleWorld (some (wp 1.95 0)) true [])
        (samplePlanner samplePlan []) sampleCmd).map (fun o => o.planner) = some arrivedPlanner ∧
    arrivedPlanner.reached_goal_ = true ∧ arrivedPlanner.local_plan = [] ∧
    (computeVelocityCommands (sampleWorld (some (wp 0 0)) true sampleCandidate)
        arrivedPlanner sampleCmd).map
      (fun o => (o.events.filter Event.isProviderQuery, o.planner.local_plan))
      = some ([Event.isStateValid (wp 0 0), Event.getPath (wp 0 0) (wp 2 0) [6, 6, 355 / 113]],
          [wp 0 0, wp 0.2 0, wp 0.4 0]) := by
  refine ⟨?_, ?_, ?_, ?_⟩ <;>
    norm_num [computeVelocityCommands, sampleWorld, samplePlanner, samplePlan, applyPrune,
      deriveGoal, readAt, endOffset, goalPoint, driveTowards, withinTolerance, hypotLe, wp,
      validityGate, refreshLocalPlan, pruneLocalPlan, distance_sq, zeroCommand, sampleCmd,
      sampleCandidate, convertPath, toWaypoint, List.enum, List.enumFrom, arrivedPlanner,
      Event.isProviderQuery, List.filter]

/-- C9 (amended): on a planner with `reached_goal_ = true`, a later call (pose available,
transform successful, goal derived) keeps the flag true; it sends no query to the path
provider and leaves the local path as it was when that call again finds the vehicle within
`xy_goal_tolerance` of the goal; when it finds the vehicle farther away it queries the
collision predicate like any other call. -/
theorem computeVelocityCommands_after_goal (w : World) (s : Planner) (cmd_vel : Twist)
    (global_pose goal_point : PoseStamped) (transformed : List PoseStamped)
    (hinit : s.initialized_ = true) (hreached : s.reached_goal_ = true)
    (hpose : w.getRobotPose = some global_pose)
    (htr : w.transformGlobalPlan s.global_plan_ global_pose s.global_frame_ = some transformed)
    (hgoal : deriveGoal w (applyPrune w s global_pose transformed).1 = some goal_point) :
    ∃ o, computeVelocityCommands w s cmd_vel = some o ∧ o.planner.reached_goal_ = true ∧
      (withinTolerance goal_point global_pose s.xy_goal_tolerance = true →
        (∀ e ∈ o.events, e.isProviderQuery = false) ∧
        o.planner.local_plan = s.local_plan) ∧
      (withinTolerance goal_point global_pose s.xy_goal_tolerance = false →
        Event.isStateValid global_pose ∈ o.events) := by
  have hne := deriveGoal_ne_nil w _ _ hgoal
  refine ⟨_, computeVelocityCommands_eq_driveTowards w s cmd_vel global_pose goal_point
    transformed hinit hpose htr hne hgoal, driveTowards_reached_mono _ _ _ _ _ _ _ hreached,
    ?_, ?_⟩
  · intro hwt
    obtain ⟨_, k2, _⟩ := driveTowards_goal_test w
      { s with global_plan_ := (applyPrune w s global_pose transformed).2 } cmd_vel global_pose
      (applyPrune w s global_pose transformed).1 goal_point
      [Event.footprint global_pose.pose.position.x global_pose.pose.position.y
        (w.getYaw global_pose.pose.orientation)] (by simp) (by simp [Event.isProviderQuery])
    obtain ⟨_, _, _, _, _, _, a7, a8⟩ := k2 hwt
    exact ⟨a8, a7⟩
  · intro hwt
    rcases driveTowards_far_cases w
      { s with global_plan_ := (applyPrune w s global_pose transformed).2 } cmd_vel global_pose
      (applyPrune w s global_pose transformed).1 goal_point
      [Event.footprint global_pose.pose.position.x global_pose.pose.position.y
        (w.getYaw global_pose.pose.orientation)] hwt with
      ⟨_, e⟩ | ⟨_, _, _, e⟩ | ⟨_, _, _, e⟩ | ⟨_, _, e⟩ <;> rw [e] <;> simp

theorem computeVelocityCommands_after_goal_witness :
    arrivedPlanner.initialized_ = true ∧ arrivedPlanner.reached_goal_ = true ∧
    withinTolerance (wp 2 0) (wp 1.95 0) arrivedPlanner.xy_goal_tolerance = true ∧
    ∃ o, computeVelocityCommands (sampleWorld (some (wp 1.95 0)) true sampleCandidate)
        arrivedPlanner sampleCmd = some o ∧ o.planner.reached_goal_ = true ∧
      (withinTolerance (wp 2 0) (wp 1.95 0) arrivedPlanner.xy_goal_tolerance = true →
        (∀ e ∈ o.events, e.isProviderQuery = false) ∧
        o.planner.local_plan = arrivedPlanner.local_plan) ∧
      (withinTolerance (wp 2 0) (wp 1.95 0) arrivedPlanner.xy_goal_tolerance = false →
        Event.isStateValid (wp 1.95 0) ∈ o.events) :=
  ⟨rfl, rfl, by norm_num [withinTolerance, hypotLe, wp, arrivedPlanner, samplePlanner],
   computeVelocityCommands_after_goal (sampleWorld (some (wp 1.95 0)) true sampleCandidate)
     arrivedPlanner sampleCmd (wp 1.95 0) (wp 2 0) samplePlan rfl rfl rfl rfl
     (by norm_num [deriveGoal, applyPrune, sampleWorld, arrivedPlanner, samplePlanner,
        samplePlan, readAt, endOffset, goalPoint, wp])⟩

/-! ## Success with less than a path -/

/-- C10 (the code at the failing input): the planner holds the local path `[(0,0), (1,0)]`,
the vehicle has come to `(1,0)`, one unit from the goal `(2,0)`, collision free, and the
provider returns no point.  The call returns `true` without setting `reached_goal_`, and
the local path it publishes has the single waypoint `(1,0)`. -/
theorem success_with_single_waypoint :
    (computeVelocityCommands (sampleWorld (some (wp 1 0)) true [])
        (samplePlanner samplePlan [wp 0 0, wp 1 0]) sampleCmd).map
      (fun o => (o.ret, o.planner.reached_goal_, o.planner.local_plan, o.events.getLast?))
      = some (true, false, [wp 1 0], some (Event.publishLocal [wp 1 0])) := by
  norm_num [computeVelocityCommands, sampleWorld, samplePlanner, samplePlan, applyPrune,
    deriveGoal, readAt, endOffset, goalPoint, driveTowards, withinTolerance, hypotLe, wp,
    validityGate, refreshLocalPlan, pruneLocalPlan, distance_sq, zeroCommand, sampleCmd]

/-! ## The reads that derive the goal -/

theorem readAt_eq_none_iff (v : List PoseStamped) (i : Int) :
    readAt v i = none ↔ i < 0 ∨ (v.length : Int) ≤ i := by
  unfold readAt
  by_cases h : 0 ≤ i
  · rw [if_pos h, List.getElem?_eq_none_iff]
    omega
  · rw [if_neg h]
    simp only [true_iff]
    omega

theorem goal_minus_read_in_bounds_iff (v : List PoseStamped) :
    (0 ≤ endOffset v.length (-2) ∧ endOffset v.length (-2) < (v.length : Int)) ↔
      2 ≤ v.length := by
  unfold endOffset
  omega

/-- C11 (the code at the failing input): the transformed, pruned plan `[(2,0)]` passes the
guard `transformed_plan.empty()`, its last waypoint is read in bounds, but the read
`transformed_plan.end()[-2]` is at position `-1`, outside the plan: the goal is not
derived and the call has no defined result. -/
theorem goal_read_outside_one_waypoint_plan :
    ([wp 2 0] : List PoseStamped).isEmpty = false ∧
    (applyPrune (sampleWorld (some (wp 0 0)) true sampleCandidate) (samplePlanner [wp 2 0] [])
      (wp 0 0) [wp 2 0]).1 = [wp 2 0] ∧
    ([wp 2 0] : List PoseStamped).getLast? = some (wp 2 0) ∧
    endOffset ([wp 2 0] : List PoseStamped).length (-2) = -1 ∧
    readAt [wp 2 0] (endOffset ([wp 2 0] : List PoseStamped).length (-2)) = none ∧
    deriveGoal (sampleWorld (some (wp 0 0)) true sampleCandidate) [wp 2 0] = none ∧
    computeVelocityCommands (sampleWorld (some (wp 0 0)) true sampleCandidate)
      (samplePlanner [wp 2 0] []) sampleCmd = none := by
  refine ⟨rfl, rfl, rfl, by simp [endOffset], readAt_endOffset_singleton _,
    deriveGoal_singleton _ _, ?_⟩
  rw [computeVelocityCommands_eq_none_iff]
  exact ⟨rfl, wp 0 0, [wp 2 0], rfl, rfl, rfl⟩

end mpnet_local_planner
